import Mathlib

/-
Shallow embedding of the tetrahedral-mesh core of
`Source/Urho3D/Math/TetrahedralMesh.h`.

Modelling decisions:
* Machine floating-point scalars (`float` / `double`) are idealised as an
  arbitrary linear ordered field `K` (instantiated with `ℚ` for concrete
  evaluations and with `ℝ` where square roots are needed).  All claims below
  are about the algorithmic structure (comparisons, branches, index
  arithmetic), not about rounding.
* The transcendental C library routines used by the root solvers
  (`std::sqrt`, `std::cbrt`, `std::acos`, `std::cos`, the constant `M_PI`) are
  passed explicitly as a record `FloatOps` of functions; theorems that depend
  on the meaning of `sqrt` instantiate it with `Real.sqrt`.
* Every raw C++ array subscript (`tetrahedrons_[i]`, `vertices_[i]`,
  `hullNormals_[i]`, `container[i]`, `circumspheres_[i]`) is modelled with
  `List.get?`, so an access past the end of the array is observable as the
  `Option.none` outcome instead of undefined behaviour.
* Output parameters passed by reference in C++ (the `tetIndexHint` of
  `GetInterpolationFactors` and `Sample`) become additional components of the
  returned value.
-/

namespace TetMesh

/-- `M_MAX_UNSIGNED` from `MathDefs.h`: the all-ones 32-bit unsigned value used
as the "none" sentinel for neighbor slots. -/
def M_MAX_UNSIGNED : Nat := 2 ^ 32 - 1

/-- Urho3D `Vector3` (a 3-vector of scalars). -/
structure Vector3 (K : Type) where
  x : K
  y : K
  z : K
deriving DecidableEq

/-- Urho3D `Vector4` (a 4-vector of scalars); used for barycentric weights. -/
structure Vector4 (K : Type) where
  x : K
  y : K
  z : K
  w : K
deriving DecidableEq

variable {K : Type} [LinearOrderedField K]

/-- Componentwise subtraction (`Vector3::operator -`). -/
def Vector3.sub (a b : Vector3 K) : Vector3 K :=
  ⟨a.x - b.x, a.y - b.y, a.z - b.z⟩

/-- Componentwise addition (`Vector3::operator +`). -/
def Vector3.add (a b : Vector3 K) : Vector3 K :=
  ⟨a.x + b.x, a.y + b.y, a.z + b.z⟩

/-- Scalar multiplication (`operator * (float, Vector3)`). -/
def Vector3.smul (c : K) (a : Vector3 K) : Vector3 K :=
  ⟨c * a.x, c * a.y, c * a.z⟩

instance : Sub (Vector3 K) := ⟨Vector3.sub⟩

instance : Add (Vector3 K) := ⟨Vector3.add⟩

instance : SMul K (Vector3 K) := ⟨Vector3.smul⟩

/-- `Vector3::DotProduct`. -/
def Vector3.DotProduct (a b : Vector3 K) : K :=
  a.x * b.x + a.y * b.y + a.z * b.z

/-- `Vector3::CrossProduct`. -/
def Vector3.CrossProduct (a b : Vector3 K) : Vector3 K :=
  ⟨a.y * b.z - a.z * b.y, a.z * b.x - a.x * b.z, a.x * b.y - a.y * b.x⟩

/-- Squared length of a 3-vector (`LengthSquared`). -/
def Vector3.LengthSquared (a : Vector3 K) : K :=
  a.DotProduct a

/-- The zero 4-vector (`Vector4::ZERO`). -/
def Vector4.ZERO : Vector4 K := ⟨0, 0, 0, 0⟩

/-- Component access of a `Vector4` by slot, mirroring `operator[]`. -/
def Vector4.get (v : Vector4 K) : Fin 4 → K
  | 0 => v.x
  | 1 => v.y
  | 2 => v.z
  | 3 => v.w

/-- The test `weights.x_ >= 0.0f && weights.y_ >= 0.0f && weights.z_ >= 0.0f
&& weights.w_ >= 0.0f` from `GetInterpolationFactors` / `FindTetrahedron`. -/
def Vector4.allNonneg (v : Vector4 K) : Prop :=
  0 ≤ v.x ∧ 0 ≤ v.y ∧ 0 ≤ v.z ∧ 0 ≤ v.w

instance (v : Vector4 K) : Decidable v.allNonneg := by
  unfold Vector4.allNonneg
  infer_instance

/-- Urho3D `Matrix3x4`: a 3×4 matrix; `matrix_ * v` applies the 3×3 block to
`v` and adds the fourth (translation) column. -/
structure Matrix3x4 (K : Type) where
  m00 : K
  m01 : K
  m02 : K
  m03 : K
  m10 : K
  m11 : K
  m12 : K
  m13 : K
  m20 : K
  m21 : K
  m22 : K
  m23 : K
deriving DecidableEq

/-- `Matrix3x4::operator *(const Vector3&)`. -/
def Matrix3x4.mulVec (m : Matrix3x4 K) (v : Vector3 K) : Vector3 K :=
  ⟨m.m00 * v.x + m.m01 * v.y + m.m02 * v.z + m.m03,
   m.m10 * v.x + m.m11 * v.y + m.m12 * v.z + m.m13,
   m.m20 * v.x + m.m21 * v.y + m.m22 * v.z + m.m23⟩

/-- The scalar library routines called by the root solvers, passed explicitly:
`sqrt`, `cbrt`, `acos`, `cos`, the constant `M_PI`, and the tolerance
`M_EPSILON`.  `M_EPSILON` is modelled from the spec: `MathDefs.h` is not in
`src/`; the spec gives `ε ≈ 1e-6`. -/
structure FloatOps (K : Type) where
  sqrt : K → K
  cbrt : K → K
  acos : K → K
  cos : K → K
  pi : K
  eps : K

/-- `TetrahedralMesh::SolveCubicEquation`: solve `x^3 + a*x^2 + b*x + c = 0`;
returns the list of produced real roots (`result[0..numRoots-1]`). -/
def SolveCubicEquation (ops : FloatOps K) (a b c eps : K) : List K :=
  let a2 := a * a
  let q := (a2 - 3 * b) / 9
  let r := (a * (2 * a2 - 9 * b) + 27 * c) / 54
  let r2 := r * r
  let q3 := q * q * q
  if r2 ≤ q3 + eps then
    let t0 := r / ops.sqrt q3
    let t1 := if t0 < -1 then -1 else t0
    let t2 := if 1 < t1 then 1 else t1
    let t := ops.acos t2
    let a3 := a / 3
    let q2 := -2 * ops.sqrt q
    [q2 * ops.cos (t / 3) - a3,
     q2 * ops.cos ((t + ops.pi * 2) / 3) - a3,
     q2 * ops.cos ((t - ops.pi * 2) / 3) - a3]
  else
    let A0 := -(ops.cbrt (|r| + ops.sqrt (r2 - q3)))
    let A := if r < 0 then -A0 else A0
    let B := if A = 0 then 0 else q / A
    let a3 := a / 3
    let res0 := (A + B) - a3
    let res1 := -(1 / 2) * (A + B) - a3
    let res2 := (1 / 2) * ops.sqrt 3 * (A - B)
    if |res2| < eps then [res0, res1] else [res0]

/-- `*ea::max_element(result, result + numRoots)` over a nonempty list. -/
def listMax : List K → K
  | [] => 0
  | x :: xs => xs.foldl max x

/-- `TetrahedralMesh::SolveCubic`: most positive real root of
`x^3 + abc.x*x^2 + abc.y*x + abc.z = 0`. -/
def SolveCubic (ops : FloatOps K) (abc : Vector3 K) : K :=
  listMax (SolveCubicEquation ops abc.x abc.y abc.z ops.eps)

/-- `TetrahedralMesh::SolveQuadratic`: most positive root of
`abc.x*x^2 + abc.y*x + abc.z = 0`, falling back to the linear solution when
`|a| < M_EPSILON`. -/
def SolveQuadratic (ops : FloatOps K) (abc : Vector3 K) : K :=
  let a := abc.x
  let b := abc.y
  let c := abc.z
  if |a| < ops.eps then -c / b
  else
    let D := max 0 (b * b - 4 * a * c)
    if 0 < a then (-b + ops.sqrt D) / (2 * a) else (-b - ops.sqrt D) / (2 * a)

/-- `TetrahedralMesh::GetTriangleBarycentricCoords` (Möller–Trumbore style
dot-product formulation; the denominator is assumed nonzero by the spec, and
division is the field's total division). -/
def GetTriangleBarycentricCoords (position p1 p2 p3 : Vector3 K) : Vector3 K :=
  let v12 := p2 - p1
  let v13 := p3 - p1
  let v0 := position - p1
  let d00 := v12.DotProduct v12
  let d01 := v12.DotProduct v13
  let d11 := v13.DotProduct v13
  let d20 := v0.DotProduct v12
  let d21 := v0.DotProduct v13
  let denom := d00 * d11 - d01 * d01
  let v := (d11 * d20 - d01 * d21) / denom
  let w := (d00 * d21 - d01 * d20) / denom
  ⟨1 - v - w, v, w⟩

/-- `TetrahedralMeshSurfaceTriangle`: a surface triangle with adjacency
information.  `i0 i1 i2` are `indices_[0..2]`, `n0 n1 n2` are
`neighbors_[0..2]`. -/
structure TetrahedralMeshSurfaceTriangle where
  i0 : Nat
  i1 : Nat
  i2 : Nat
  unusedIndex_ : Nat
  n0 : Nat
  n1 : Nat
  n2 : Nat
  tetIndex_ : Nat
  tetFace_ : Nat
deriving DecidableEq

/-- The effect of `ea::swap(indices_[0], indices_[1]);
ea::swap(neighbors_[0], neighbors_[1]);` inside
`TetrahedralMeshSurfaceTriangle::Normalize`. -/
def TetrahedralMeshSurfaceTriangle.swap01
    (t : TetrahedralMeshSurfaceTriangle) : TetrahedralMeshSurfaceTriangle :=
  { t with i0 := t.i1, i1 := t.i0, n0 := t.n1, n1 := t.n0 }

/-- `TetrahedralMeshSurfaceTriangle::Normalize(vertices)`: swap slots 0 and 1
of indices and neighbors when `(p1 - p0) · ((p2 - p1) × (p3 - p1)) < 0`. -/
def Normalize (vertices : List (Vector3 K))
    (t : TetrahedralMeshSurfaceTriangle) :
    Option TetrahedralMeshSurfaceTriangle :=
  (vertices.get? t.unusedIndex_).bind fun p0 =>
    (vertices.get? t.i0).bind fun p1 =>
      (vertices.get? t.i1).bind fun p2 =>
        (vertices.get? t.i2).bind fun p3 =>
          let outsideDirection := p1 - p0
          let actualNormal := (p2 - p1).CrossProduct (p3 - p1)
          if outsideDirection.DotProduct actualNormal < 0 then some t.swap01
          else some t

/-- The quantity `(p1 - p0) · ((p2 - p1) × (p3 - p1))` tested by `Normalize`
(the signed orientation of the triangle relative to the unused vertex). -/
def triangleOrientation (vertices : List (Vector3 K))
    (t : TetrahedralMeshSurfaceTriangle) : Option K :=
  (vertices.get? t.unusedIndex_).bind fun p0 =>
    (vertices.get? t.i0).bind fun p1 =>
      (vertices.get? t.i1).bind fun p2 =>
        (vertices.get? t.i2).bind fun p3 =>
          some ((p1 - p0).DotProduct ((p2 - p1).CrossProduct (p3 - p1)))

/-- `Tetrahedron`: four vertex indices (`i0..i3` = `indices_`), four neighbor
indices (`n0..n3` = `neighbors_`, `M_MAX_UNSIGNED` if empty), and the
precomputed barycentric matrix. -/
structure Tetrahedron (K : Type) where
  i0 : Nat
  i1 : Nat
  i2 : Nat
  i3 : Nat
  n0 : Nat
  n1 : Nat
  n2 : Nat
  n3 : Nat
  matrix_ : Matrix3x4 K
deriving DecidableEq

/-- `Tetrahedron::Infinity3`: sentinel vertex index for outer tetrahedra
solved by the cubic equation. -/
def Tetrahedron.Infinity3 : Nat := M_MAX_UNSIGNED

/-- `Tetrahedron::Infinity2`: sentinel vertex index for outer tetrahedra
solved by the quadratic equation. -/
def Tetrahedron.Infinity2 : Nat := M_MAX_UNSIGNED - 1

/-- `indices_[k]`. -/
def Tetrahedron.index (t : Tetrahedron K) : Fin 4 → Nat
  | 0 => t.i0
  | 1 => t.i1
  | 2 => t.i2
  | 3 => t.i3

/-- `neighbors_[k]`. -/
def Tetrahedron.nbr (t : Tetrahedron K) : Fin 4 → Nat
  | 0 => t.n0
  | 1 => t.n1
  | 2 => t.n2
  | 3 => t.n3

/-- The queried state of `TetrahedralMesh`: vertices, tetrahedra, hull
normals, and the number of inner tetrahedra (the first
`numInnerTetrahedrons_` entries of `tetrahedrons_` are inner, the rest
outer). -/
structure TetrahedralMesh (K : Type) where
  vertices_ : List (Vector3 K)
  tetrahedrons_ : List (Tetrahedron K)
  hullNormals_ : List (Vector3 K)
  numInnerTetrahedrons_ : Nat
deriving DecidableEq

/-- `TetrahedralMesh::GetInnerBarycentricCoords(tetIndex, position)`. -/
def TetrahedralMesh.GetInnerBarycentricCoords (m : TetrahedralMesh K)
    (tetIndex : Nat) (position : Vector3 K) : Option (Vector4 K) :=
  (m.tetrahedrons_.get? tetIndex).bind fun tetrahedron =>
    (m.vertices_.get? tetrahedron.i0).bind fun basePosition =>
      let coords := tetrahedron.matrix_.mulVec (position - basePosition)
      some ⟨1 - coords.x - coords.y - coords.z, coords.x, coords.y, coords.z⟩

/-- `TetrahedralMesh::GetOuterBarycentricCoords(tetIndex, position)`. -/
def TetrahedralMesh.GetOuterBarycentricCoords (ops : FloatOps K)
    (m : TetrahedralMesh K) (tetIndex : Nat) (position : Vector3 K) :
    Option (Vector4 K) :=
  (m.tetrahedrons_.get? tetIndex).bind fun tetrahedron =>
    (m.vertices_.get? tetrahedron.i0).bind fun p1 =>
      (m.vertices_.get? tetrahedron.i1).bind fun p2 =>
        (m.vertices_.get? tetrahedron.i2).bind fun p3 =>
          let normal := (p2 - p1).CrossProduct (p3 - p1)
          if normal.DotProduct (position - p1) < 0 then
            some ⟨0, 0, 0, -1⟩
          else
            let poly := tetrahedron.matrix_.mulVec position
            let tRoot :=
              if tetrahedron.i3 = Tetrahedron.Infinity3 then SolveCubic ops poly
              else SolveQuadratic ops poly
            (m.hullNormals_.get? tetrahedron.i0).bind fun hn1 =>
              (m.hullNormals_.get? tetrahedron.i1).bind fun hn2 =>
                (m.hullNormals_.get? tetrahedron.i2).bind fun hn3 =>
                  let t1 := p1 + tRoot • hn1
                  let t2 := p2 + tRoot • hn2
                  let t3 := p3 + tRoot • hn3
                  let coords := GetTriangleBarycentricCoords position t1 t2 t3
                  some ⟨coords.x, coords.y, coords.z, 0⟩

/-- `TetrahedralMesh::GetBarycentricCoords(tetIndex, position)`. -/
def TetrahedralMesh.GetBarycentricCoords (ops : FloatOps K)
    (m : TetrahedralMesh K) (tetIndex : Nat) (position : Vector3 K) :
    Option (Vector4 K) :=
  if tetIndex < m.numInnerTetrahedrons_ then
    m.GetInnerBarycentricCoords tetIndex position
  else
    m.GetOuterBarycentricCoords ops tetIndex position

/-- The neighbor-selection cascade shared verbatim by
`GetInterpolationFactors` and `FindTetrahedron`: which `neighbors_` slot the
walk steps through for the given barycentric weights. -/
def stepSlot (v : Vector4 K) : Fin 4 :=
  if v.x < v.y ∧ v.x < v.z ∧ v.x < v.w then 0
  else if v.y < v.z ∧ v.y < v.w then 1
  else if v.z < v.w then 2
  else 3

/-- The point-location loop of `TetrahedralMesh::GetInterpolationFactors`:
`fuel` counts the remaining iterations of `for (i = 0; i < maxIters; ++i)`;
at `fuel = 0` the tail `return GetBarycentricCoords(tetIndexHint, position)`
runs.  The result carries the weights, the final value of the hint, and (as
instrumentation) the number of neighbor steps taken; `none` models an access
past the end of an array. -/
def TetrahedralMesh.interpolationLoop (ops : FloatOps K)
    (m : TetrahedralMesh K) (position : Vector3 K) :
    Nat → Nat → Option (Vector4 K × Nat × Nat)
  | 0, tetIndexHint =>
    (m.GetBarycentricCoords ops tetIndexHint position).map
      fun weights => (weights, tetIndexHint, 0)
  | fuel + 1, tetIndexHint =>
    (m.GetBarycentricCoords ops tetIndexHint position).bind fun weights =>
      if weights.allNonneg then some (weights, tetIndexHint, 0)
      else
        (m.tetrahedrons_.get? tetIndexHint).bind fun tetrahedron =>
          (m.interpolationLoop ops position fuel
              (tetrahedron.nbr (stepSlot weights))).map
            fun r => (r.1, r.2.1, r.2.2 + 1)

/-- `TetrahedralMesh::GetInterpolationFactors(position, tetIndexHint)`, with
the step-count instrumentation exposed: returns
`(weights, final hint, steps)`. -/
def TetrahedralMesh.GetInterpolationFactorsSteps (ops : FloatOps K)
    (m : TetrahedralMesh K) (position : Vector3 K) (tetIndexHint : Nat) :
    Option (Vector4 K × Nat × Nat) :=
  if m.tetrahedrons_.length = 0 then some (Vector4.ZERO, tetIndexHint, 0)
  else
    m.interpolationLoop ops position m.tetrahedrons_.length
      (if m.tetrahedrons_.length ≤ tetIndexHint then 0 else tetIndexHint)

/-- `TetrahedralMesh::GetInterpolationFactors(position, tetIndexHint)`:
returns the weights and the written-back hint. -/
def TetrahedralMesh.GetInterpolationFactors (ops : FloatOps K)
    (m : TetrahedralMesh K) (position : Vector3 K) (tetIndexHint : Nat) :
    Option (Vector4 K × Nat) :=
  (m.GetInterpolationFactorsSteps ops position tetIndexHint).map
    fun r => (r.1, r.2.1)

/-- `TetrahedralMesh::Sample(container, position, tetIndexHint)` over an
arbitrary per-vertex container (a list of values of an additive monoid with
scalar multiplication); `container[i] * weights[k]` is modelled as
`weights.get k • container[i]`.  Returns the sampled value and the
written-back hint. -/
def TetrahedralMesh.Sample {V : Type} [AddCommMonoid V] [SMul K V]
    (ops : FloatOps K) (m : TetrahedralMesh K) (container : List V)
    (position : Vector3 K) (tetIndexHint : Nat) : Option (V × Nat) :=
  (m.GetInterpolationFactors ops position tetIndexHint).bind fun r =>
    if r.2 < m.tetrahedrons_.length then
      (m.tetrahedrons_.get? r.2).bind fun tetrahedron =>
        (container.get? tetrahedron.i0).bind fun c0 =>
          (container.get? tetrahedron.i1).bind fun c1 =>
            (container.get? tetrahedron.i2).bind fun c2 =>
              let base := 0 + r.1.x • c0 + r.1.y • c1 + r.1.z • c2
              if r.2 < m.numInnerTetrahedrons_ then
                (container.get? tetrahedron.i3).bind fun c3 =>
                  some (base + r.1.w • c3, r.2)
              else some (base, r.2)
    else some (0, r.2)

/-- Modelled from the spec: `TetrahedralMesh::BuildOuterTetrahedrons` lives in
the `.cpp` file, which is not in `src/`; per the spec, "Neighbor slot 3 is the
inner tetrahedron on the other side of the hull face" for every outer
tetrahedron. -/
def TetrahedralMesh.OuterSlot3Inner (m : TetrahedralMesh K) : Prop :=
  ∀ i t, m.numInnerTetrahedrons_ ≤ i → m.tetrahedrons_.get? i = some t →
    t.n3 < m.numInnerTetrahedrons_

/-- `M_EPSILON` from `MathDefs.h`, modelled from the spec (`MathDefs.h` is not
in `src/`): the tight geometric tolerance `ε ≈ 1e-6`. -/
noncomputable def M_EPSILON : ℝ := 1 / 1000000

/-- `M_LARGE_EPSILON` from `MathDefs.h`, modelled from the spec (`MathDefs.h`
is not in `src/`): the loose circumsphere tolerance `ε_large ≈ 1e-4`. -/
noncomputable def M_LARGE_EPSILON : ℝ := 1 / 10000

/-- `HighPrecisionSphere`: double-precision center and radius (doubles are
idealised as `ℝ`). -/
structure HighPrecisionSphere where
  center_ : Vector3 ℝ
  radius_ : ℝ

/-- `HighPrecisionSphere::Distance(position)`: signed distance from a position
to the sphere, `sqrt(‖p - c‖²) - r`. -/
noncomputable def HighPrecisionSphere.Distance (s : HighPrecisionSphere)
    (position : Vector3 ℝ) : ℝ :=
  Real.sqrt ((position - s.center_).LengthSquared) - s.radius_

/-- `TetrahedralMesh::DelaunayContext`: the per-`Define` scratch state
(circumspheres of current tetrahedra and the removed flags). -/
structure DelaunayContext where
  circumspheres_ : List HighPrecisionSphere
  removed_ : List Bool

/-- `DelaunayContext::IsInsideCircumsphere(tetIndex, position)`:
`circumspheres_[tetIndex].Distance(position) < M_LARGE_EPSILON`, with the
array subscript modelled as a successful `get?`. -/
def DelaunayContext.IsInsideCircumsphere (ctx : DelaunayContext)
    (tetIndex : Nat) (position : Vector3 ℝ) : Prop :=
  ∃ s, ctx.circumspheres_.get? tetIndex = some s ∧
    s.Distance position < M_LARGE_EPSILON

/-
Concrete instances used by the closed counterexample and witness theorems
below.  `dummyOps` gives arbitrary values to the library routines; none of the
concrete evaluations below ever reaches a code path that calls them.
-/

/-- Library-routine record for concrete `ℚ` evaluations (never called on the
evaluated paths). -/
def dummyOps : FloatOps ℚ := ⟨fun _ => 0, fun _ => 0, fun _ => 0, fun _ => 0, 0, 0⟩

/-- Library-routine record over `ℝ` whose `sqrt` is the real square root and
whose `eps` is `M_EPSILON`, as in the source. -/
noncomputable def realOps : FloatOps ℝ :=
  ⟨Real.sqrt, fun x => x, fun x => x, fun x => x, 0, M_EPSILON⟩

/-- Barycentric matrix whose first column is `(cx, cy, cz)` and all other
entries are zero: at query position `(1,0,0)` with base vertex `(0,0,0)` it
produces the coordinates `(cx, cy, cz)`. -/
def qMat (cx cy cz : ℚ) : Matrix3x4 ℚ :=
  ⟨cx, 0, 0, 0, cy, 0, 0, 0, cz, 0, 0, 0⟩

/-- Query position used by the concrete meshes below. -/
def pQ : Vector3 ℚ := ⟨1, 0, 0⟩

/-- Tetrahedron whose barycentric weights at `pQ` are `(-1, -1, 1, 2)` (tied
most negative components in slots 0 and 1), with `neighbors_[0] = 1` and
`neighbors_[1] = 2`. -/
def tet0C1 : Tetrahedron ℚ := ⟨0, 0, 0, 0, 1, 2, 0, 0, qMat (-1) 1 2⟩

/-- Tetrahedron whose barycentric weights at `pQ` are `(1, 0, 0, 0)`. -/
def tetUnit : Tetrahedron ℚ := ⟨0, 0, 0, 0, 0, 0, 0, 0, qMat 0 0 0⟩

/-- Tetrahedron whose barycentric weights at `pQ` are `(0, 1, 0, 0)`. -/
def tetUnit1 : Tetrahedron ℚ := ⟨0, 0, 0, 0, 0, 0, 0, 0, qMat 1 0 0⟩

/-- Mesh exhibiting the tie-break behaviour: the walk from tetrahedron 0 sees
weights `(-1, -1, 1, 2)` and must choose between neighbor slots 0 and 1. -/
def mC1 : TetrahedralMesh ℚ :=
  ⟨[⟨0, 0, 0⟩], [tet0C1, tetUnit, tetUnit1], [], 3⟩

/-- Single tetrahedron whose weights at `pQ` are `(-1, 2, 0, 0)` and all of
whose neighbor slots hold the "none" sentinel. -/
def tetC2 : Tetrahedron ℚ :=
  ⟨0, 0, 0, 0, M_MAX_UNSIGNED, M_MAX_UNSIGNED, M_MAX_UNSIGNED, M_MAX_UNSIGNED,
   qMat 2 0 0⟩

/-- Mesh with a single tetrahedron all of whose neighbors are "none". -/
def mC2 : TetrahedralMesh ℚ := ⟨[⟨0, 0, 0⟩], [tetC2], [], 1⟩

/-- Tetrahedron with weights `(-1, 2, 0, 0)` at `pQ`, stepping to
tetrahedron 1 through slot 0. -/
def tet0C3 : Tetrahedron ℚ := ⟨0, 0, 0, 0, 1, 0, 0, 0, qMat 2 0 0⟩

/-- Tetrahedron with weights `(-2, 3, 0, 0)` at `pQ`, stepping to
tetrahedron 2 through slot 0. -/
def tet1C3 : Tetrahedron ℚ := ⟨0, 0, 0, 0, 2, 0, 0, 0, qMat 3 0 0⟩

/-- Tetrahedron with weights `(-3, 4, 0, 0)` at `pQ`, stepping back to
tetrahedron 1 through slot 0. -/
def tet2C3 : Tetrahedron ℚ := ⟨0, 0, 0, 0, 1, 0, 0, 0, qMat 4 0 0⟩

/-- Mesh on which the point-location walk never converges: tetrahedron 0
steps to 1, tetrahedron 1 steps to 2, tetrahedron 2 steps back to 1, and no
tetrahedron contains `pQ`. -/
def mC3 : TetrahedralMesh ℚ :=
  ⟨[⟨0, 0, 0⟩], [tet0C3, tet1C3, tet2C3], [], 3⟩

/-- Outer tetrahedron over the hull triangle `(0, 1, 2)` with the `Infinity2`
sentinel in vertex slot 3 and the inner tetrahedron 0 in neighbor slot 3. -/
def tetC5 : Tetrahedron ℚ :=
  ⟨0, 1, 2, Tetrahedron.Infinity2, 0, 0, 0, 0, qMat 0 0 0⟩

/-- Mesh with one inner tetrahedron (index 0) and one outer tetrahedron
(index 1) whose base triangle is the `z = 0` triangle `(0,0,0), (1,0,0),
(0,1,0)`. -/
def mC5 : TetrahedralMesh ℚ :=
  ⟨[⟨0, 0, 0⟩, ⟨1, 0, 0⟩, ⟨0, 1, 0⟩], [tetUnit, tetC5],
   [⟨0, 0, 1⟩, ⟨0, 0, 1⟩, ⟨0, 0, 1⟩], 1⟩

/-- Query position on the inner side of `mC5`'s outer tetrahedron's base
triangle. -/
def pC5 : Vector3 ℚ := ⟨0, 0, -1⟩

/-- Mesh with no tetrahedra at all. -/
def mEmpty : TetrahedralMesh ℚ := ⟨[], [], [], 0⟩

/-- Vertex list for the triangle-normalization witness. -/
def vC8 : List (Vector3 ℚ) := [⟨0, 0, 0⟩, ⟨0, 0, -1⟩, ⟨1, 0, 0⟩, ⟨0, 1, 0⟩]

/-- Surface triangle (vertices 1, 2, 3; unused vertex 0) whose normal points
toward the unused vertex, so `Normalize` must swap slots 0 and 1. -/
def tC8 : TetrahedralMeshSurfaceTriangle := ⟨1, 2, 3, 0, 10, 11, 12, 0, 0⟩

/-- Circumsphere list for the `IsInsideCircumsphere` witness: one unit sphere
at the origin. -/
noncomputable def ctxC7 : DelaunayContext :=
  ⟨[⟨⟨0, 0, 0⟩, 1⟩], [false]⟩

/-
Helper lemmas shared by the claim theorems.
-/

/-- Unfolding lemma for componentwise 3-vector subtraction. -/
theorem Vector3.sub_def (a b : Vector3 K) :
    a - b = ⟨a.x - b.x, a.y - b.y, a.z - b.z⟩ := rfl

/-- Unfolding lemma for componentwise 3-vector addition. -/
theorem Vector3.add_def (a b : Vector3 K) :
    a + b = ⟨a.x + b.x, a.y + b.y, a.z + b.z⟩ := rfl

/-- Unfolding lemma for 3-vector scalar multiplication. -/
theorem Vector3.smul_def (c : K) (a : Vector3 K) :
    c • a = ⟨c * a.x, c * a.y, c * a.z⟩ := rfl

/-- A barycentric query at an index past the end of the tetrahedron array is
an out-of-bounds access (`none`). -/
theorem GetBarycentricCoords_none_of_le (ops : FloatOps K)
    (m : TetrahedralMesh K) (tetIndex : Nat) (position : Vector3 K)
    (h : m.tetrahedrons_.length ≤ tetIndex) :
    m.GetBarycentricCoords ops tetIndex position = none := by
  have hg : m.tetrahedrons_.get? tetIndex = none := List.get?_eq_none.mpr h
  unfold TetrahedralMesh.GetBarycentricCoords
    TetrahedralMesh.GetInnerBarycentricCoords
    TetrahedralMesh.GetOuterBarycentricCoords
  split_ifs <;> rw [hg] <;> rfl

/-- Entering the point-location loop at an out-of-range index yields the
out-of-bounds outcome, whatever the remaining fuel. -/
theorem interpolationLoop_none_of_le (ops : FloatOps K)
    (m : TetrahedralMesh K) (position : Vector3 K) (tetIndexHint : Nat)
    (h : m.tetrahedrons_.length ≤ tetIndexHint) :
    ∀ fuel, m.interpolationLoop ops position fuel tetIndexHint = none := by
  have hb := GetBarycentricCoords_none_of_le ops m tetIndexHint position h
  intro fuel
  cases fuel with
  | zero => rw [TetrahedralMesh.interpolationLoop, hb]; rfl
  | succ n => rw [TetrahedralMesh.interpolationLoop, hb]; rfl

/-- A successful barycentric query implies the index is in range. -/
theorem lt_length_of_bary_some (ops : FloatOps K) (m : TetrahedralMesh K)
    (tetIndex : Nat) (position : Vector3 K) (w : Vector4 K)
    (h : m.GetBarycentricCoords ops tetIndex position = some w) :
    tetIndex < m.tetrahedrons_.length := by
  by_contra hge
  push_neg at hge
  rw [GetBarycentricCoords_none_of_le ops m tetIndex position hge] at h
  exact Option.noConfusion h

/-- Whatever hint the point-location loop returns, the returned weights are
exactly the barycentric coordinates at that hint. -/
theorem interpolationLoop_bary_final (ops : FloatOps K)
    (m : TetrahedralMesh K) (position : Vector3 K) :
    ∀ fuel tetIndexHint w h' s,
      m.interpolationLoop ops position fuel tetIndexHint = some (w, h', s) →
      m.GetBarycentricCoords ops h' position = some w := by
  intro fuel
  induction fuel with
  | zero =>
    intro hint w h' s h
    simp only [TetrahedralMesh.interpolationLoop, Option.map_eq_some'] at h
    obtain ⟨a, ha, heq⟩ := h
    simp only [Prod.ext_iff] at heq
    obtain ⟨rfl, rfl, -⟩ := heq
    exact ha
  | succ n ih =>
    intro hint w h' s h
    rw [TetrahedralMesh.interpolationLoop] at h
    cases hb : m.GetBarycentricCoords ops hint position with
    | none => rw [hb] at h; exact Option.noConfusion h
    | some w0 =>
      rw [hb, Option.some_bind] at h
      by_cases hnn : w0.allNonneg
      · rw [if_pos hnn] at h
        have h1 := Option.some.inj h
        simp only [Prod.ext_iff] at h1
        obtain ⟨rfl, rfl, -⟩ := h1
        exact hb
      · rw [if_neg hnn] at h
        simp only [Option.bind_eq_some, Option.map_eq_some'] at h
        obtain ⟨t, hg, ⟨w1, h1, s1⟩, hr, heq⟩ := h
        simp only [Prod.ext_iff] at heq
        obtain ⟨rfl, rfl, -⟩ := heq
        exact ih _ _ _ _ hr

/-
Claim theorems.
-/

/-- C9: for every tetrahedron index with a well-defined inner matrix and every
query position, the four components of `GetInnerBarycentricCoords` sum exactly
to 1, by construction of the return value `(1 - cx - cy - cz, cx, cy, cz)`. -/
theorem claim_C9_inner_barycentric_sums_to_one (m : TetrahedralMesh K)
    (tetIndex : Nat) (position : Vector3 K) (w : Vector4 K)
    (h : m.GetInnerBarycentricCoords tetIndex position = some w) :
    w.x + w.y + w.z + w.w = 1 := by
  simp only [TetrahedralMesh.GetInnerBarycentricCoords, bind, Option.bind_eq_some,
    pure, Option.some.injEq] at h
  obtain ⟨t, ht, b, hb, hw⟩ := h
  rw [← hw]
  ring

/-- C9 witness: the inner barycentric coordinates of `mC2`'s tetrahedron 0 at
`pQ` are `(-1, 2, 0, 0)`, and they sum to 1. -/
theorem claim_C9_witness :
    (Vector4.mk (-1) 2 0 0 : Vector4 ℚ).x + (Vector4.mk (-1) 2 0 0).y +
      (Vector4.mk (-1) 2 0 0).z + (Vector4.mk (-1) 2 0 0).w = 1 :=
  claim_C9_inner_barycentric_sums_to_one mC2 0 pQ ⟨-1, 2, 0, 0⟩ (by
    norm_num [TetrahedralMesh.GetInnerBarycentricCoords, mC2, tetC2, qMat, pQ,
      Matrix3x4.mulVec, Vector3.sub_def, bind, pure])

/-- C6: if the mesh's tetrahedron sequence is empty, then for every query
position and every hint value, `GetInterpolationFactors` returns the zero
4-vector (and leaves the hint untouched). -/
theorem claim_C6_empty_mesh_returns_zero (ops : FloatOps K)
    (m : TetrahedralMesh K) (h : m.tetrahedrons_ = [])
    (position : Vector3 K) (tetIndexHint : Nat) :
    m.GetInterpolationFactors ops position tetIndexHint =
      some (Vector4.ZERO, tetIndexHint) := by
  simp [TetrahedralMesh.GetInterpolationFactors,
    TetrahedralMesh.GetInterpolationFactorsSteps, h]

/-- C6 witness: on the concrete empty mesh, the query at `(5, 6, 7)` with hint
9 returns the zero 4-vector. -/
theorem claim_C6_witness :
    mEmpty.GetInterpolationFactors dummyOps ⟨5, 6, 7⟩ 9 =
      some (Vector4.ZERO, 9) :=
  claim_C6_empty_mesh_returns_zero dummyOps mEmpty rfl ⟨5, 6, 7⟩ 9

/-- The neighbor-selection cascade always picks a slot holding the minimal
weight component, and among equal minimal components it picks the highest
slot index (every strictly higher slot holds a strictly larger weight). -/
theorem stepSlot_spec (w : Vector4 K) :
    (∀ j : Fin 4, w.get (stepSlot w) ≤ w.get j) ∧
    (∀ j : Fin 4, stepSlot w < j → w.get (stepSlot w) < w.get j) := by
  unfold stepSlot
  split_ifs with h1 h2 h3
  · refine ⟨fun j => ?_, fun j hj => ?_⟩
    · fin_cases j <;> simp only [Vector4.get] <;> linarith [h1.1, h1.2.1, h1.2.2]
    · fin_cases j <;> simp only [Vector4.get] <;>
        first
        | exact absurd hj (by decide)
        | linarith [h1.1, h1.2.1, h1.2.2]
  · have hyx : w.y ≤ w.x := by
      rcases not_and_or.mp h1 with hxy | hrest
      · exact le_of_not_lt hxy
      · rcases not_and_or.mp hrest with hxz | hxw
        · exact h2.1.le.trans (le_of_not_lt hxz)
        · exact h2.2.le.trans (le_of_not_lt hxw)
    refine ⟨fun j => ?_, fun j hj => ?_⟩
    · fin_cases j <;> simp only [Vector4.get] <;> linarith [h2.1, h2.2]
    · fin_cases j <;> simp only [Vector4.get] <;>
        first
        | exact absurd hj (by decide)
        | linarith [h2.1, h2.2]
  · have hzy : w.z ≤ w.y := by
      rcases not_and_or.mp h2 with hyz | hyw
      · exact le_of_not_lt hyz
      · exact h3.le.trans (le_of_not_lt hyw)
    have hzx : w.z ≤ w.x := by
      rcases not_and_or.mp h1 with hxy | hrest
      · exact hzy.trans (le_of_not_lt hxy)
      · rcases not_and_or.mp hrest with hxz | hxw
        · exact le_of_not_lt hxz
        · exact h3.le.trans (le_of_not_lt hxw)
    refine ⟨fun j => ?_, fun j hj => ?_⟩
    · fin_cases j <;> simp only [Vector4.get] <;> linarith [h3]
    · fin_cases j <;> simp only [Vector4.get] <;>
        first
        | exact absurd hj (by decide)
        | linarith [h3]
  · have hwz : w.w ≤ w.z := le_of_not_lt h3
    have hwy : w.w ≤ w.y := by
      rcases not_and_or.mp h2 with hyz | hyw
      · exact hwz.trans (le_of_not_lt hyz)
      · exact le_of_not_lt hyw
    have hwx : w.w ≤ w.x := by
      rcases not_and_or.mp h1 with hxy | hrest
      · exact hwy.trans (le_of_not_lt hxy)
      · rcases not_and_or.mp hrest with hxz | hxw
        · exact hwz.trans (le_of_not_lt hxz)
        · exact le_of_not_lt hxw
    refine ⟨fun j => ?_, fun j hj => ?_⟩
    · fin_cases j <;> simp only [Vector4.get] <;> linarith
    · fin_cases j <;> exact absurd hj (by decide)

/-- C1 (amended): when the current weights have a negative component, the
walk in `GetInterpolationFactors` steps to the neighbor stored in a slot
holding the most negative component, and when two or more components are
equally most negative it deterministically prefers the HIGHEST such slot
index (every strictly higher slot holds a strictly larger component). -/
theorem claim_C1_step_most_negative (ops : FloatOps K) (m : TetrahedralMesh K)
    (position : Vector3 K) (fuel tetIndexHint : Nat) (t : Tetrahedron K)
    (w : Vector4 K) (ht : m.tetrahedrons_.get? tetIndexHint = some t)
    (hw : m.GetBarycentricCoords ops tetIndexHint position = some w)
    (hneg : ¬ w.allNonneg) :
    (∀ j : Fin 4, w.get (stepSlot w) ≤ w.get j) ∧
    (∀ j : Fin 4, stepSlot w < j → w.get (stepSlot w) < w.get j) ∧
    m.interpolationLoop ops position (fuel + 1) tetIndexHint =
      (m.interpolationLoop ops position fuel (t.nbr (stepSlot w))).map
        (fun r => (r.1, r.2.1, r.2.2 + 1)) := by
  refine ⟨(stepSlot_spec w).1, (stepSlot_spec w).2, ?_⟩
  rw [TetrahedralMesh.interpolationLoop, hw, Option.some_bind, if_neg hneg,
    ht, Option.some_bind]

/-- C1 counterexample: on `mC1` at `pQ` the weights of tetrahedron 0 are
`(-1, -1, 1, 2)`, with the most negative value held by both slot 0 and
slot 1; the walk steps through `neighbors_[1] = 2` (ending at tetrahedron 2
with weights `(0, 1, 0, 0)`), not through the lowest tied slot
`neighbors_[0] = 1` (which would end at tetrahedron 1 with weights
`(1, 0, 0, 0)`). -/
theorem claim_C1_counterexample :
    mC1.GetBarycentricCoords dummyOps 0 pQ =
      some (Vector4.mk (-1) (-1) 1 2) ∧
    (Vector4.mk (-1) (-1) 1 2 : Vector4 ℚ).get 0 =
      (Vector4.mk (-1) (-1) 1 2 : Vector4 ℚ).get 1 ∧
    (Vector4.mk (-1) (-1) 1 2 : Vector4 ℚ).get 0 <
      (Vector4.mk (-1) (-1) 1 2 : Vector4 ℚ).get 2 ∧
    (Vector4.mk (-1) (-1) 1 2 : Vector4 ℚ).get 0 <
      (Vector4.mk (-1) (-1) 1 2 : Vector4 ℚ).get 3 ∧
    tet0C1.nbr 0 = 1 ∧ tet0C1.nbr 1 = 2 ∧
    mC1.GetInterpolationFactors dummyOps pQ 0 =
      some (Vector4.mk 0 1 0 0, 2) ∧
    mC1.GetInterpolationFactors dummyOps pQ 0 ≠
      some (Vector4.mk 1 0 0 0, 1) := by
  have hb0 : mC1.GetBarycentricCoords dummyOps 0 pQ =
      some (Vector4.mk (-1) (-1) 1 2) := by
    norm_num [TetrahedralMesh.GetBarycentricCoords,
      TetrahedralMesh.GetInnerBarycentricCoords, mC1, tet0C1, qMat, pQ,
      Matrix3x4.mulVec, Vector3.sub_def, bind, pure]
  have hb2 : mC1.GetBarycentricCoords dummyOps 2 pQ =
      some (Vector4.mk 0 1 0 0) := by
    norm_num [TetrahedralMesh.GetBarycentricCoords,
      TetrahedralMesh.GetInnerBarycentricCoords, mC1, tetUnit1, qMat, pQ,
      Matrix3x4.mulVec, Vector3.sub_def, bind, pure]
  have hl2 : mC1.interpolationLoop dummyOps pQ 2 2 =
      some (Vector4.mk 0 1 0 0, 2, 0) := by
    rw [TetrahedralMesh.interpolationLoop, hb2, Option.some_bind,
      if_pos (by norm_num [Vector4.allNonneg])]
  have hl3 : mC1.interpolationLoop dummyOps pQ 3 0 =
      some (Vector4.mk 0 1 0 0, 2, 1) := by
    rw [TetrahedralMesh.interpolationLoop, hb0, Option.some_bind,
      if_neg (by norm_num [Vector4.allNonneg]),
      show mC1.tetrahedrons_.get? 0 = some tet0C1 from rfl, Option.some_bind,
      show stepSlot (Vector4.mk (-1) (-1) 1 2 : Vector4 ℚ) = 1 by
        norm_num [stepSlot],
      show tet0C1.nbr 1 = 2 from rfl, hl2]
    rfl
  have hfull : mC1.GetInterpolationFactors dummyOps pQ 0 =
      some (Vector4.mk 0 1 0 0, 2) := by
    rw [TetrahedralMesh.GetInterpolationFactors,
      TetrahedralMesh.GetInterpolationFactorsSteps,
      show mC1.tetrahedrons_.length = 3 from rfl]
    norm_num [hl3]
  refine ⟨hb0, by norm_num [Vector4.get], by norm_num [Vector4.get],
    by norm_num [Vector4.get], rfl, rfl, hfull, ?_⟩
  rw [hfull]
  intro hcontra
  have h1 := Option.some.inj hcontra
  have h2 := congrArg Prod.snd h1
  norm_num at h2

/-- C1 witness: the amended step theorem applied to `mC1` at `pQ` from
tetrahedron 0 with weights `(-1, -1, 1, 2)`. -/
theorem claim_C1_witness :
    (Vector4.mk (-1) (-1) 1 2 : Vector4 ℚ).get
        (stepSlot (Vector4.mk (-1) (-1) 1 2 : Vector4 ℚ)) ≤
      (Vector4.mk (-1) (-1) 1 2 : Vector4 ℚ).get 0 ∧
    (Vector4.mk (-1) (-1) 1 2 : Vector4 ℚ).get
        (stepSlot (Vector4.mk (-1) (-1) 1 2 : Vector4 ℚ)) <
      (Vector4.mk (-1) (-1) 1 2 : Vector4 ℚ).get 3 ∧
    mC1.interpolationLoop dummyOps pQ 2 0 =
      (mC1.interpolationLoop dummyOps pQ 1
          (tet0C1.nbr (stepSlot (Vector4.mk (-1) (-1) 1 2 : Vector4 ℚ)))).map
        (fun r => (r.1, r.2.1, r.2.2 + 1)) := by
  have h := claim_C1_step_most_negative dummyOps mC1 pQ 1 0 tet0C1
    (Vector4.mk (-1) (-1) 1 2 : Vector4 ℚ) rfl
    (by norm_num [TetrahedralMesh.GetBarycentricCoords,
      TetrahedralMesh.GetInnerBarycentricCoords, mC1, tet0C1, qMat, pQ,
      Matrix3x4.mulVec, Vector3.sub_def, bind, pure])
    (by norm_num [Vector4.allNonneg])
  refine ⟨h.1 0, h.2.1 3 ?_, h.2.2⟩
  rw [show stepSlot (Vector4.mk (-1) (-1) 1 2 : Vector4 ℚ) = 1 by
    norm_num [stepSlot]]
  decide

/-- C2 (amended): `GetInterpolationFactors` contains no guard for the "none"
neighbor sentinel.  When a step of the walk selects a slot holding
`M_MAX_UNSIGNED`, the walk continues and the next barycentric evaluation
happens at the sentinel index — an access past the end of the tetrahedron
array (outcome `none`) — instead of returning the last computed weights. -/
theorem claim_C2_none_step_goes_out_of_bounds (ops : FloatOps K)
    (m : TetrahedralMesh K) (position : Vector3 K) (tetIndexHint : Nat)
    (t : Tetrahedron K) (w : Vector4 K)
    (hlen : m.tetrahedrons_.length ≤ M_MAX_UNSIGNED)
    (ht : m.tetrahedrons_.get? tetIndexHint = some t)
    (hw : m.GetBarycentricCoords ops tetIndexHint position = some w)
    (hneg : ¬ w.allNonneg)
    (hnone : t.nbr (stepSlot w) = M_MAX_UNSIGNED) :
    (∀ fuel, m.interpolationLoop ops position (fuel + 1) tetIndexHint = none) ∧
    (tetIndexHint < m.tetrahedrons_.length →
      m.GetInterpolationFactors ops position tetIndexHint = none) := by
  have hloop : ∀ fuel,
      m.interpolationLoop ops position (fuel + 1) tetIndexHint = none := by
    intro fuel
    rw [TetrahedralMesh.interpolationLoop, hw, Option.some_bind, if_neg hneg,
      ht, Option.some_bind, hnone,
      interpolationLoop_none_of_le ops m position M_MAX_UNSIGNED hlen fuel]
    rfl
  refine ⟨hloop, fun hlt => ?_⟩
  have hpos : 0 < m.tetrahedrons_.length := Nat.lt_of_le_of_lt (Nat.zero_le _) hlt
  obtain ⟨f, hf⟩ := Nat.exists_eq_succ_of_ne_zero (Nat.pos_iff_ne_zero.mp hpos)
  rw [TetrahedralMesh.GetInterpolationFactors,
    TetrahedralMesh.GetInterpolationFactorsSteps, if_neg (by omega),
    if_neg (by omega), hf, hloop f]
  rfl

/-- C2 counterexample: on `mC2` (one tetrahedron, all neighbors "none") at
`pQ` the weights are `(-1, 2, 0, 0)`, the step crosses a "none" neighbor, and
`GetInterpolationFactors` evaluates barycentric coordinates at the sentinel
index — an out-of-bounds access (`none`) — instead of returning the last
computed weights. -/
theorem claim_C2_counterexample :
    mC2.GetBarycentricCoords dummyOps 0 pQ = some (Vector4.mk (-1) 2 0 0) ∧
    tetC2.nbr (stepSlot (Vector4.mk (-1) 2 0 0 : Vector4 ℚ)) =
      M_MAX_UNSIGNED ∧
    mC2.GetInterpolationFactors dummyOps pQ 0 = none := by
  have hb0 : mC2.GetBarycentricCoords dummyOps 0 pQ =
      some (Vector4.mk (-1) 2 0 0) := by
    norm_num [TetrahedralMesh.GetBarycentricCoords,
      TetrahedralMesh.GetInnerBarycentricCoords, mC2, tetC2, qMat, pQ,
      Matrix3x4.mulVec, Vector3.sub_def, bind, pure]
  have hstep : stepSlot (Vector4.mk (-1) 2 0 0 : Vector4 ℚ) = 0 := by
    norm_num [stepSlot]
  have hnone : mC2.GetBarycentricCoords dummyOps M_MAX_UNSIGNED pQ = none :=
    GetBarycentricCoords_none_of_le dummyOps mC2 M_MAX_UNSIGNED pQ
      (by norm_num [mC2, M_MAX_UNSIGNED])
  have hl0 : mC2.interpolationLoop dummyOps pQ 0 M_MAX_UNSIGNED = none := by
    rw [TetrahedralMesh.interpolationLoop, hnone]
    rfl
  have hl1 : mC2.interpolationLoop dummyOps pQ 1 0 = none := by
    rw [TetrahedralMesh.interpolationLoop, hb0, Option.some_bind,
      if_neg (by norm_num [Vector4.allNonneg]),
      show mC2.tetrahedrons_.get? 0 = some tetC2 from rfl, Option.some_bind,
      hstep, show tetC2.nbr 0 = M_MAX_UNSIGNED from rfl, hl0]
    rfl
  refine ⟨hb0, by rw [hstep]; rfl, ?_⟩
  rw [TetrahedralMesh.GetInterpolationFactors,
    TetrahedralMesh.GetInterpolationFactorsSteps,
    show mC2.tetrahedrons_.length = 1 from rfl]
  norm_num [hl1]

/-- C2 witness: the amended theorem applied to `mC2` at `pQ` from
tetrahedron 0. -/
theorem claim_C2_witness :
    mC2.interpolationLoop dummyOps pQ 1 0 = none ∧
    mC2.GetInterpolationFactors dummyOps pQ 0 = none := by
  have h := claim_C2_none_step_goes_out_of_bounds dummyOps mC2 pQ 0 tetC2
    (Vector4.mk (-1) 2 0 0 : Vector4 ℚ)
    (by norm_num [mC2, M_MAX_UNSIGNED]) rfl
    (by norm_num [TetrahedralMesh.GetBarycentricCoords,
      TetrahedralMesh.GetInnerBarycentricCoords, mC2, tetC2, qMat, pQ,
      Matrix3x4.mulVec, Vector3.sub_def, bind, pure])
    (by norm_num [Vector4.allNonneg])
    (by rw [show stepSlot (Vector4.mk (-1) 2 0 0 : Vector4 ℚ) = 0 by
      norm_num [stepSlot]]; rfl)
  exact ⟨h.1 0, h.2 (by norm_num [mC2])⟩

/-- C3 (amended): if a call to `GetInterpolationFactors` returns weights that
are all non-negative (the walk located a containing tetrahedron, or the mesh
is empty), then a second call from the written-back hint returns the same
weights and the same hint and performs zero neighbor steps.  (When the first
call exhausts its iteration budget and returns weights with a negative
component, the second call may return different weights and take more than
one step — see the counterexample.) -/
theorem claim_C3_hint_idempotent_when_converged (ops : FloatOps K)
    (m : TetrahedralMesh K) (position : Vector3 K) (tetIndexHint : Nat)
    (w : Vector4 K) (h' s : Nat)
    (h : m.GetInterpolationFactorsSteps ops position tetIndexHint =
      some (w, h', s))
    (hnn : w.allNonneg) :
    m.GetInterpolationFactorsSteps ops position h' = some (w, h', 0) := by
  by_cases hlen : m.tetrahedrons_.length = 0
  · rw [TetrahedralMesh.GetInterpolationFactorsSteps, if_pos hlen] at h
    have h1 := Option.some.inj h
    simp only [Prod.ext_iff] at h1
    obtain ⟨rfl, rfl, -⟩ := h1
    rw [TetrahedralMesh.GetInterpolationFactorsSteps, if_pos hlen]
  · rw [TetrahedralMesh.GetInterpolationFactorsSteps, if_neg hlen] at h
    have hb := interpolationLoop_bary_final ops m position _ _ _ _ _ h
    have hlt := lt_length_of_bary_some ops m h' position w hb
    obtain ⟨f, hf⟩ := Nat.exists_eq_succ_of_ne_zero hlen
    rw [TetrahedralMesh.GetInterpolationFactorsSteps, if_neg hlen,
      if_neg (not_le.mpr hlt), hf, TetrahedralMesh.interpolationLoop, hb,
      Option.some_bind, if_pos hnn]

/-- C3 counterexample: on `mC3` at `pQ` the first call (hint 0) exhausts its
iteration budget and returns weights `(-2, 3, 0, 0)` with written-back hint 1;
the second call from hint 1 returns the different weights `(-3, 4, 0, 0)`
(with hint 2) and takes 3 neighbor steps, not at most one. -/
theorem claim_C3_counterexample :
    mC3.GetInterpolationFactors dummyOps pQ 0 =
      some (Vector4.mk (-2) 3 0 0, 1) ∧
    mC3.GetInterpolationFactorsSteps dummyOps pQ 1 =
      some (Vector4.mk (-3) 4 0 0, 2, 3) ∧
    (Vector4.mk (-2) 3 0 0 : Vector4 ℚ) ≠ (Vector4.mk (-3) 4 0 0) ∧
    ¬ (3 : Nat) ≤ 1 := by
  have hb0 : mC3.GetBarycentricCoords dummyOps 0 pQ =
      some (Vector4.mk (-1) 2 0 0) := by
    norm_num [TetrahedralMesh.GetBarycentricCoords,
      TetrahedralMesh.GetInnerBarycentricCoords, mC3, tet0C3, qMat, pQ,
      Matrix3x4.mulVec, Vector3.sub_def, bind, pure]
  have hb1 : mC3.GetBarycentricCoords dummyOps 1 pQ =
      some (Vector4.mk (-2) 3 0 0) := by
    norm_num [TetrahedralMesh.GetBarycentricCoords,
      TetrahedralMesh.GetInnerBarycentricCoords, mC3, tet1C3, qMat, pQ,
      Matrix3x4.mulVec, Vector3.sub_def, bind, pure]
  have hb2 : mC3.GetBarycentricCoords dummyOps 2 pQ =
      some (Vector4.mk (-3) 4 0 0) := by
    norm_num [TetrahedralMesh.GetBarycentricCoords,
      TetrahedralMesh.GetInnerBarycentricCoords, mC3, tet2C3, qMat, pQ,
      Matrix3x4.mulVec, Vector3.sub_def, bind, pure]
  have hs0 : stepSlot (Vector4.mk (-1) 2 0 0 : Vector4 ℚ) = 0 := by
    norm_num [stepSlot]
  have hs1 : stepSlot (Vector4.mk (-2) 3 0 0 : Vector4 ℚ) = 0 := by
    norm_num [stepSlot]
  have hs2 : stepSlot (Vector4.mk (-3) 4 0 0 : Vector4 ℚ) = 0 := by
    norm_num [stepSlot]
  have hl01 : mC3.interpolationLoop dummyOps pQ 0 1 =
      some (Vector4.mk (-2) 3 0 0, 1, 0) := by
    rw [TetrahedralMesh.interpolationLoop, hb1]
    rfl
  have hl12 : mC3.interpolationLoop dummyOps pQ 1 2 =
      some (Vector4.mk (-2) 3 0 0, 1, 1) := by
    rw [TetrahedralMesh.interpolationLoop, hb2, Option.some_bind,
      if_neg (by norm_num [Vector4.allNonneg]),
      show mC3.tetrahedrons_.get? 2 = some tet2C3 from rfl, Option.some_bind,
      hs2, show tet2C3.nbr 0 = 1 from rfl, hl01]
    rfl
  have hl21 : mC3.interpolationLoop dummyOps pQ 2 1 =
      some (Vector4.mk (-2) 3 0 0, 1, 2) := by
    rw [TetrahedralMesh.interpolationLoop, hb1, Option.some_bind,
      if_neg (by norm_num [Vector4.allNonneg]),
      show mC3.tetrahedrons_.get? 1 = some tet1C3 from rfl, Option.some_bind,
      hs1, show tet1C3.nbr 0 = 2 from rfl, hl12]
    rfl
  have hl30 : mC3.interpolationLoop dummyOps pQ 3 0 =
      some (Vector4.mk (-2) 3 0 0, 1, 3) := by
    rw [TetrahedralMesh.interpolationLoop, hb0, Option.some_bind,
      if_neg (by norm_num [Vector4.allNonneg]),
      show mC3.tetrahedrons_.get? 0 = some tet0C3 from rfl, Option.some_bind,
      hs0, show tet0C3.nbr 0 = 1 from rfl, hl21]
    rfl
  have hl02 : mC3.interpolationLoop dummyOps pQ 0 2 =
      some (Vector4.mk (-3) 4 0 0, 2, 0) := by
    rw [TetrahedralMesh.interpolationLoop, hb2]
    rfl
  have hl11 : mC3.interpolationLoop dummyOps pQ 1 1 =
      some (Vector4.mk (-3) 4 0 0, 2, 1) := by
    rw [TetrahedralMesh.interpolationLoop, hb1, Option.some_bind,
      if_neg (by norm_num [Vector4.allNonneg]),
      show mC3.tetrahedrons_.get? 1 = some tet1C3 from rfl, Option.some_bind,
      hs1, show tet1C3.nbr 0 = 2 from rfl, hl02]
    rfl
  have hl22 : mC3.interpolationLoop dummyOps pQ 2 2 =
      some (Vector4.mk (-3) 4 0 0, 2, 2) := by
    rw [TetrahedralMesh.interpolationLoop, hb2, Option.some_bind,
      if_neg (by norm_num [Vector4.allNonneg]),
      show mC3.tetrahedrons_.get? 2 = some tet2C3 from rfl, Option.some_bind,
      hs2, show tet2C3.nbr 0 = 1 from rfl, hl11]
    rfl
  have hl31 : mC3.interpolationLoop dummyOps pQ 3 1 =
      some (Vector4.mk (-3) 4 0 0, 2, 3) := by
    rw [TetrahedralMesh.interpolationLoop, hb1, Option.some_bind,
      if_neg (by norm_num [Vector4.allNonneg]),
      show mC3.tetrahedrons_.get? 1 = some tet1C3 from rfl, Option.some_bind,
      hs1, show tet1C3.nbr 0 = 2 from rfl, hl22]
    rfl
  refine ⟨?_, ?_, by norm_num [Vector4.mk.injEq], by norm_num⟩
  · rw [TetrahedralMesh.GetInterpolationFactors,
      TetrahedralMesh.GetInterpolationFactorsSteps,
      show mC3.tetrahedrons_.length = 3 from rfl]
    norm_num [hl30]
  · rw [TetrahedralMesh.GetInterpolationFactorsSteps,
      show mC3.tetrahedrons_.length = 3 from rfl]
    norm_num [hl31]

/-- C3 witness: the amended theorem applied to `mC1` at `pQ`: the first call
(hint 0) converges with weights `(0, 1, 0, 0)` at hint 2; the repeated call
returns the same weights and hint with zero steps. -/
theorem claim_C3_witness :
    mC1.GetInterpolationFactorsSteps dummyOps pQ 2 =
      some (Vector4.mk 0 1 0 0, 2, 0) := by
  have hb0 : mC1.GetBarycentricCoords dummyOps 0 pQ =
      some (Vector4.mk (-1) (-1) 1 2) := by
    norm_num [TetrahedralMesh.GetBarycentricCoords,
      TetrahedralMesh.GetInnerBarycentricCoords, mC1, tet0C1, qMat, pQ,
      Matrix3x4.mulVec, Vector3.sub_def, bind, pure]
  have hb2 : mC1.GetBarycentricCoords dummyOps 2 pQ =
      some (Vector4.mk 0 1 0 0) := by
    norm_num [TetrahedralMesh.GetBarycentricCoords,
      TetrahedralMesh.GetInnerBarycentricCoords, mC1, tetUnit1, qMat, pQ,
      Matrix3x4.mulVec, Vector3.sub_def, bind, pure]
  have hl2 : mC1.interpolationLoop dummyOps pQ 2 2 =
      some (Vector4.mk 0 1 0 0, 2, 0) := by
    rw [TetrahedralMesh.interpolationLoop, hb2, Option.some_bind,
      if_pos (by norm_num [Vector4.allNonneg])]
  have hl3 : mC1.interpolationLoop dummyOps pQ 3 0 =
      some (Vector4.mk 0 1 0 0, 2, 1) := by
    rw [TetrahedralMesh.interpolationLoop, hb0, Option.some_bind,
      if_neg (by norm_num [Vector4.allNonneg]),
      show mC1.tetrahedrons_.get? 0 = some tet0C1 from rfl, Option.some_bind,
      show stepSlot (Vector4.mk (-1) (-1) 1 2 : Vector4 ℚ) = 1 by
        norm_num [stepSlot],
      show tet0C1.nbr 1 = 2 from rfl, hl2]
    rfl
  have hsteps : mC1.GetInterpolationFactorsSteps dummyOps pQ 0 =
      some (Vector4.mk 0 1 0 0, 2, 1) := by
    rw [TetrahedralMesh.GetInterpolationFactorsSteps,
      show mC1.tetrahedrons_.length = 3 from rfl]
    norm_num [hl3]
  exact claim_C3_hint_idempotent_when_converged dummyOps mC1 pQ 0
    (Vector4.mk 0 1 0 0) 2 1 hsteps (by norm_num [Vector4.allNonneg])

/-- C5: when the query position lies on the inner side of an outer
tetrahedron's base triangle (`normal · (p - p1) < 0` with
`normal = (p2 - p1) × (p3 - p1)`), `GetOuterBarycentricCoords` returns the
sentinel `(0, 0, 0, -1)`; on that sentinel the walk's neighbor-selection
cascade picks slot 3, so the walk in `GetInterpolationFactors` steps to
`neighbors_[3]` — which, by the spec-modelled outer-shell invariant, is the
inner tetrahedron across the hull face. -/
theorem claim_C5_outer_inner_side (ops : FloatOps K) (m : TetrahedralMesh K)
    (tetIndex : Nat) (position : Vector3 K) (t : Tetrahedron K)
    (p1 p2 p3 : Vector3 K)
    (ht : m.tetrahedrons_.get? tetIndex = some t)
    (h1 : m.vertices_.get? t.i0 = some p1)
    (h2 : m.vertices_.get? t.i1 = some p2)
    (h3 : m.vertices_.get? t.i2 = some p3)
    (hside : ((p2 - p1).CrossProduct (p3 - p1)).DotProduct (position - p1)
      < 0) :
    m.GetOuterBarycentricCoords ops tetIndex position =
      some ⟨0, 0, 0, -1⟩ ∧
    stepSlot (⟨0, 0, 0, -1⟩ : Vector4 K) = 3 ∧
    (m.numInnerTetrahedrons_ ≤ tetIndex → ∀ fuel,
      m.interpolationLoop ops position (fuel + 1) tetIndex =
        (m.interpolationLoop ops position fuel t.n3).map
          (fun r => (r.1, r.2.1, r.2.2 + 1))) ∧
    (m.OuterSlot3Inner → m.numInnerTetrahedrons_ ≤ tetIndex →
      t.n3 < m.numInnerTetrahedrons_) := by
  have hsent : m.GetOuterBarycentricCoords ops tetIndex position =
      some ⟨0, 0, 0, -1⟩ := by
    rw [TetrahedralMesh.GetOuterBarycentricCoords, ht, Option.some_bind, h1,
      Option.some_bind, h2, Option.some_bind, h3, Option.some_bind,
      if_pos hside]
  have hslot : stepSlot (⟨0, 0, 0, -1⟩ : Vector4 K) = 3 := by
    norm_num [stepSlot]
  refine ⟨hsent, hslot, fun hout fuel => ?_, fun hinv hout => ?_⟩
  · have hbary : m.GetBarycentricCoords ops tetIndex position =
        some ⟨0, 0, 0, -1⟩ := by
      rw [TetrahedralMesh.GetBarycentricCoords, if_neg (not_lt.mpr hout),
        hsent]
    rw [TetrahedralMesh.interpolationLoop, hbary, Option.some_bind,
      if_neg (by norm_num [Vector4.allNonneg]), ht, Option.some_bind, hslot,
      show t.nbr 3 = t.n3 from rfl]
  · exact hinv tetIndex t hout ht

/-- C5 witness: on `mC5`, querying the outer tetrahedron 1 at `pC5` (inner
side of the base triangle) yields the sentinel, the cascade picks slot 3, the
walk steps to `neighbors_[3] = 0`, and that neighbor is inner. -/
theorem claim_C5_witness :
    mC5.GetOuterBarycentricCoords dummyOps 1 pC5 =
      some (Vector4.mk 0 0 0 (-1)) ∧
    stepSlot (Vector4.mk 0 0 0 (-1) : Vector4 ℚ) = 3 ∧
    mC5.interpolationLoop dummyOps pC5 1 1 =
      (mC5.interpolationLoop dummyOps pC5 0 tetC5.n3).map
        (fun r => (r.1, r.2.1, r.2.2 + 1)) ∧
    tetC5.n3 < mC5.numInnerTetrahedrons_ := by
  have hinv : mC5.OuterSlot3Inner := by
    intro i t hi ht
    match i, hi with
    | 1, _ =>
      have : tetC5 = t := Option.some.inj ht
      rw [← this]
      norm_num [tetC5, mC5]
    | (n + 2), _ =>
      simp [mC5, List.get?] at ht
  have h := claim_C5_outer_inner_side dummyOps mC5 1 pC5 tetC5
    ⟨0, 0, 0⟩ ⟨1, 0, 0⟩ ⟨0, 1, 0⟩ rfl rfl rfl rfl
    (by norm_num [Vector3.CrossProduct, Vector3.DotProduct, Vector3.sub_def,
      pC5])
  exact ⟨h.1, h.2.1, h.2.2.1 (by norm_num [mC5]) 0,
    h.2.2.2 hinv (by norm_num [mC5])⟩

/-- C8: `Normalize` swaps index slots 0 and 1 together with neighbor slots 0
and 1 exactly when `(p1 - p0) · ((p2 - p1) × (p3 - p1)) < 0`, and after
`Normalize` the same orientation quantity recomputed on the (possibly
swapped) triangle is non-negative — the triangle normal points away from the
unused fourth vertex. -/
theorem claim_C8_normalize_orientation (vertices : List (Vector3 K))
    (t : TetrahedralMeshSurfaceTriangle) (d : K)
    (hd : triangleOrientation vertices t = some d) :
    Normalize vertices t = some (if d < 0 then t.swap01 else t) ∧
    ∃ d', triangleOrientation vertices (if d < 0 then t.swap01 else t) =
        some d' ∧ 0 ≤ d' := by
  have hd0 := hd
  simp only [triangleOrientation, Option.bind_eq_some, Option.some.injEq]
    at hd
  obtain ⟨p0, h0, p1, h1, p2, h2, p3, h3, hdval⟩ := hd
  constructor
  · rw [Normalize, h0, Option.some_bind, h1, Option.some_bind, h2,
      Option.some_bind, h3, Option.some_bind]
    show (if (p1 - p0).DotProduct ((p2 - p1).CrossProduct (p3 - p1)) < 0 then
        some t.swap01 else some t) = some (if d < 0 then t.swap01 else t)
    rw [hdval]
    split_ifs <;> rfl
  · by_cases hneg : d < 0
    · rw [if_pos hneg]
      refine ⟨(p2 - p0).DotProduct ((p1 - p2).CrossProduct (p3 - p2)), ?_, ?_⟩
      · rw [triangleOrientation,
          show t.swap01.unusedIndex_ = t.unusedIndex_ from rfl, h0,
          Option.some_bind, show t.swap01.i0 = t.i1 from rfl, h2,
          Option.some_bind, show t.swap01.i1 = t.i0 from rfl, h1,
          Option.some_bind, show t.swap01.i2 = t.i2 from rfl, h3,
          Option.some_bind]
      · have hflip : (p2 - p0).DotProduct ((p1 - p2).CrossProduct (p3 - p2)) =
            -((p1 - p0).DotProduct ((p2 - p1).CrossProduct (p3 - p1))) := by
          simp only [Vector3.sub_def, Vector3.CrossProduct, Vector3.DotProduct]
          ring
        rw [hflip, hdval]
        linarith
    · rw [if_neg hneg]
      exact ⟨d, hd0, le_of_not_lt hneg⟩

/-- C8 witness: on the concrete vertex list `vC8`, triangle `tC8` has
orientation `-1`, so `Normalize` swaps slots 0 and 1 and the swapped triangle
has non-negative orientation. -/
theorem claim_C8_witness :
    Normalize vC8 tC8 = some tC8.swap01 ∧
    ∃ d', triangleOrientation vC8 tC8.swap01 = some d' ∧ 0 ≤ d' := by
  have hd : triangleOrientation vC8 tC8 = some (-1) := by
    norm_num [triangleOrientation, vC8, tC8, Vector3.sub_def,
      Vector3.CrossProduct, Vector3.DotProduct, List.get?]
  have h := claim_C8_normalize_orientation vC8 tC8 (-1) hd
  rw [if_pos (by norm_num : (-1 : ℚ) < 0)] at h
  exact h

/-- Evaluation helper: the walk on `mC1` from hint 0 ends at tetrahedron 2
with weights `(0, 1, 0, 0)`. -/
theorem mC1_walk_eval :
    mC1.GetInterpolationFactors dummyOps pQ 0 =
      some (Vector4.mk 0 1 0 0, 2) := by
  have hb0 : mC1.GetBarycentricCoords dummyOps 0 pQ =
      some (Vector4.mk (-1) (-1) 1 2) := by
    norm_num [TetrahedralMesh.GetBarycentricCoords,
      TetrahedralMesh.GetInnerBarycentricCoords, mC1, tet0C1, qMat, pQ,
      Matrix3x4.mulVec, Vector3.sub_def, bind, pure]
  have hb2 : mC1.GetBarycentricCoords dummyOps 2 pQ =
      some (Vector4.mk 0 1 0 0) := by
    norm_num [TetrahedralMesh.GetBarycentricCoords,
      TetrahedralMesh.GetInnerBarycentricCoords, mC1, tetUnit1, qMat, pQ,
      Matrix3x4.mulVec, Vector3.sub_def, bind, pure]
  have hl2 : mC1.interpolationLoop dummyOps pQ 2 2 =
      some (Vector4.mk 0 1 0 0, 2, 0) := by
    rw [TetrahedralMesh.interpolationLoop, hb2, Option.some_bind,
      if_pos (by norm_num [Vector4.allNonneg])]
  have hl3 : mC1.interpolationLoop dummyOps pQ 3 0 =
      some (Vector4.mk 0 1 0 0, 2, 1) := by
    rw [TetrahedralMesh.interpolationLoop, hb0, Option.some_bind,
      if_neg (by norm_num [Vector4.allNonneg]),
      show mC1.tetrahedrons_.get? 0 = some tet0C1 from rfl, Option.some_bind,
      show stepSlot (Vector4.mk (-1) (-1) 1 2 : Vector4 ℚ) = 1 by
        norm_num [stepSlot],
      show tet0C1.nbr 1 = 2 from rfl, hl2]
    rfl
  rw [TetrahedralMesh.GetInterpolationFactors,
    TetrahedralMesh.GetInterpolationFactorsSteps,
    show mC1.tetrahedrons_.length = 3 from rfl]
  norm_num [hl3]

/-- C10: once the point-location walk has produced weights `w` and final hint
`h'`, `Sample` returns the zero element without reading any container entry
when `h'` is at or past the end of the tetrahedron array, and otherwise
returns the weighted sum over the located tetrahedron's first three vertex
slots, adding the slot-3 term exactly when the located tetrahedron is
inner. -/
theorem claim_C10_sample_structure {V : Type} [AddCommMonoid V] [SMul K V]
    (ops : FloatOps K) (m : TetrahedralMesh K) (position : Vector3 K)
    (tetIndexHint : Nat) (w : Vector4 K) (h' : Nat)
    (hr : m.GetInterpolationFactors ops position tetIndexHint =
      some (w, h')) :
    (m.tetrahedrons_.length ≤ h' → ∀ container : List V,
      m.Sample ops container position tetIndexHint = some (0, h')) ∧
    (∀ (t : Tetrahedron K) (c0 c1 c2 c3 : V) (container : List V),
      h' < m.tetrahedrons_.length → m.tetrahedrons_.get? h' = some t →
      container.get? t.i0 = some c0 → container.get? t.i1 = some c1 →
      container.get? t.i2 = some c2 →
      (h' < m.numInnerTetrahedrons_ → container.get? t.i3 = some c3 →
        m.Sample ops container position tetIndexHint =
          some (0 + w.x • c0 + w.y • c1 + w.z • c2 + w.w • c3, h')) ∧
      (m.numInnerTetrahedrons_ ≤ h' →
        m.Sample ops container position tetIndexHint =
          some (0 + w.x • c0 + w.y • c1 + w.z • c2, h'))) := by
  constructor
  · intro hge container
    have hnlt : ¬ h' < m.tetrahedrons_.length := not_lt.mpr hge
    simp only [TetrahedralMesh.Sample, hr, Option.some_bind, hnlt, if_false]
  · intro t c0 c1 c2 c3 container hlt ht hc0 hc1 hc2
    constructor
    · intro hin hc3
      simp only [TetrahedralMesh.Sample, hr, Option.some_bind, hlt, if_true,
        ht, hc0, hc1, hc2, hin, hc3]
    · intro hout
      have hnin : ¬ h' < m.numInnerTetrahedrons_ := not_lt.mpr hout
      simp only [TetrahedralMesh.Sample, hr, Option.some_bind, hlt, if_true,
        ht, hc0, hc1, hc2, hnin, if_false]

/-- C10 witness: on the empty mesh the final hint (9) is past the end and
`Sample` returns the zero element; on `mC1` the walk ends at the inner
tetrahedron 2 and `Sample` returns the weighted sum including the slot-3
term. -/
theorem claim_C10_witness :
    mEmpty.Sample dummyOps [(5 : ℚ)] pQ 9 = some (0, 9) ∧
    mC1.Sample dummyOps [(10 : ℚ)] pQ 0 = some (10, 2) := by
  constructor
  · have hr : mEmpty.GetInterpolationFactors dummyOps pQ 9 =
        some (Vector4.ZERO, 9) := by
      rw [TetrahedralMesh.GetInterpolationFactors,
        TetrahedralMesh.GetInterpolationFactorsSteps]
      norm_num [mEmpty]
    exact (claim_C10_sample_structure dummyOps mEmpty pQ 9 Vector4.ZERO 9
      hr).1 (by norm_num [mEmpty]) [(5 : ℚ)]
  · have h := (claim_C10_sample_structure dummyOps mC1 pQ 0
      (Vector4.mk 0 1 0 0) 2 mC1_walk_eval).2 tetUnit1 (10 : ℚ) 10 10 10
      [(10 : ℚ)] (by norm_num [mC1]) rfl rfl rfl rfl
    have hs := h.1 (by norm_num [mC1]) rfl
    rw [hs]
    norm_num

/-- C7: `HighPrecisionSphere::Distance(p)` is `sqrt(‖p - c‖²) - r`;
`IsInsideCircumsphere(t, p)` holds iff that distance is below
`M_LARGE_EPSILON`; in particular a point exactly on the sphere (distance 0)
counts as inside. -/
theorem claim_C7_circumsphere_distance (ctx : DelaunayContext)
    (tetIndex : Nat) (position : Vector3 ℝ) (s : HighPrecisionSphere)
    (hs : ctx.circumspheres_.get? tetIndex = some s) :
    s.Distance position =
      Real.sqrt ((position - s.center_).LengthSquared) - s.radius_ ∧
    (ctx.IsInsideCircumsphere tetIndex position ↔
      s.Distance position < M_LARGE_EPSILON) ∧
    (s.Distance position = 0 →
      ctx.IsInsideCircumsphere tetIndex position) := by
  have hiff : ctx.IsInsideCircumsphere tetIndex position ↔
      s.Distance position < M_LARGE_EPSILON := by
    constructor
    · rintro ⟨s', hs', hd⟩
      rw [hs] at hs'
      obtain rfl := Option.some.inj hs'
      exact hd
    · intro hd
      exact ⟨s, hs, hd⟩
  refine ⟨rfl, hiff, fun h0 => hiff.mpr ?_⟩
  rw [h0, M_LARGE_EPSILON]
  norm_num

/-- C7 witness: the point `(1, 0, 0)` lies exactly on the unit sphere at the
origin (distance 0) and is counted as inside the circumsphere. -/
theorem claim_C7_witness :
    ctxC7.IsInsideCircumsphere 0 (⟨1, 0, 0⟩ : Vector3 ℝ) := by
  have hdist :
      (⟨⟨0, 0, 0⟩, 1⟩ : HighPrecisionSphere).Distance ⟨1, 0, 0⟩ = 0 := by
    rw [HighPrecisionSphere.Distance]
    norm_num [Vector3.sub_def, Vector3.LengthSquared, Vector3.DotProduct,
      Real.sqrt_one]
  exact (claim_C7_circumsphere_distance ctxC7 0 ⟨1, 0, 0⟩ ⟨⟨0, 0, 0⟩, 1⟩
    rfl).2.2 hdist

/-- C4: `SolveQuadratic` returns `-c/b` when `|a| < M_EPSILON`; otherwise it
clamps the discriminant `b² - 4ac` to `≥ 0` and returns `(-b + √D)/(2a)` when
`a > 0` and `(-b - √D)/(2a)` when `a < 0`; and in the non-degenerate case
with real roots (`|a| ≥ ε`, `b² - 4ac ≥ 0`) the returned value is the largest
real root of `a·x² + b·x + c = 0`. -/
theorem claim_C4_solve_quadratic (ops : FloatOps ℝ)
    (hsq : ops.sqrt = Real.sqrt) (heps : ops.eps = M_EPSILON) (a b c : ℝ) :
    (|a| < M_EPSILON → SolveQuadratic ops ⟨a, b, c⟩ = -c / b) ∧
    (¬ |a| < M_EPSILON → 0 < a → SolveQuadratic ops ⟨a, b, c⟩ =
      (-b + Real.sqrt (max 0 (b * b - 4 * a * c))) / (2 * a)) ∧
    (¬ |a| < M_EPSILON → a < 0 → SolveQuadratic ops ⟨a, b, c⟩ =
      (-b - Real.sqrt (max 0 (b * b - 4 * a * c))) / (2 * a)) ∧
    (¬ |a| < M_EPSILON → 0 ≤ b * b - 4 * a * c →
      a * SolveQuadratic ops ⟨a, b, c⟩ ^ 2 +
          b * SolveQuadratic ops ⟨a, b, c⟩ + c = 0 ∧
      ∀ x : ℝ, a * x ^ 2 + b * x + c = 0 →
        x ≤ SolveQuadratic ops ⟨a, b, c⟩) := by
  have hQdef : SolveQuadratic ops ⟨a, b, c⟩ =
      if |a| < M_EPSILON then -c / b
      else if 0 < a then
        (-b + Real.sqrt (max 0 (b * b - 4 * a * c))) / (2 * a)
      else (-b - Real.sqrt (max 0 (b * b - 4 * a * c))) / (2 * a) := by
    simp only [SolveQuadratic, hsq, heps]
  refine ⟨fun hlt => by rw [hQdef, if_pos hlt],
    fun hge hpos => by rw [hQdef, if_neg hge, if_pos hpos],
    fun hge hneg => by rw [hQdef, if_neg hge, if_neg (not_lt.mpr hneg.le)],
    fun hge hD => ?_⟩
  have ha0 : a ≠ 0 := by
    intro h
    rw [h] at hge
    exact hge (by rw [M_EPSILON]; norm_num)
  have hmax : max 0 (b * b - 4 * a * c) = b * b - 4 * a * c :=
    max_eq_right hD
  have hs0 : 0 ≤ Real.sqrt (b * b - 4 * a * c) := Real.sqrt_nonneg _
  have hs2 : Real.sqrt (b * b - 4 * a * c) ^ 2 = b * b - 4 * a * c :=
    Real.sq_sqrt hD
  have rootOf : ∀ Q : ℝ, (2 * a * Q + b) ^ 2 = b * b - 4 * a * c →
      a * Q ^ 2 + b * Q + c = 0 := by
    intro Q hQsq
    have h4a : (4 * a) * (a * Q ^ 2 + b * Q + c) = 0 := by
      linear_combination hQsq
    rcases mul_eq_zero.mp h4a with h | h
    · exact absurd h (by simp [ha0])
    · exact h
  have hxsq : ∀ x : ℝ, a * x ^ 2 + b * x + c = 0 →
      (2 * a * x + b) ^ 2 = b * b - 4 * a * c := by
    intro x hx
    linear_combination (4 * a) * hx
  have hxabs : ∀ x : ℝ, a * x ^ 2 + b * x + c = 0 →
      |2 * a * x + b| = Real.sqrt (b * b - 4 * a * c) := by
    intro x hx
    rw [← Real.sqrt_sq_eq_abs, hxsq x hx]
  rcases ha0.lt_or_lt with hneg | hpos
  · have hQ : SolveQuadratic ops ⟨a, b, c⟩ =
        (-b - Real.sqrt (b * b - 4 * a * c)) / (2 * a) := by
      rw [hQdef, if_neg hge, if_neg (not_lt.mpr hneg.le), hmax]
    have h2a : (2 : ℝ) * a ≠ 0 := by
      intro h
      exact ha0 (by linarith [mul_eq_zero.mp h])
    have h2aQ : 2 * a * ((-b - Real.sqrt (b * b - 4 * a * c)) / (2 * a)) + b =
        -Real.sqrt (b * b - 4 * a * c) := by
      field_simp
      ring
    constructor
    · rw [hQ]
      refine rootOf _ ?_
      rw [h2aQ]
      rw [neg_pow]
      simpa using hs2
    · intro x hx
      have hle : -Real.sqrt (b * b - 4 * a * c) ≤ 2 * a * x + b := by
        have := neg_abs_le (2 * a * x + b)
        rw [hxabs x hx] at this
        exact this
      rw [hQ, le_div_iff_of_neg (by linarith : 2 * a < 0), mul_comm x (2 * a)]
      linarith
  · have hQ : SolveQuadratic ops ⟨a, b, c⟩ =
        (-b + Real.sqrt (b * b - 4 * a * c)) / (2 * a) := by
      rw [hQdef, if_neg hge, if_pos hpos, hmax]
    have h2aQ : 2 * a * ((-b + Real.sqrt (b * b - 4 * a * c)) / (2 * a)) + b =
        Real.sqrt (b * b - 4 * a * c) := by
      field_simp
    constructor
    · rw [hQ]
      exact rootOf _ (by rw [h2aQ]; exact hs2)
    · intro x hx
      have hle : 2 * a * x + b ≤ Real.sqrt (b * b - 4 * a * c) := by
        have := le_abs_self (2 * a * x + b)
        rw [hxabs x hx] at this
        exact this
      rw [hQ, le_div_iff (by linarith : (0 : ℝ) < 2 * a), mul_comm x (2 * a)]
      linarith

/-- C4 witness: for `a = 1, b = 0, c = -4` the solver returns 2, which is a
root of `x² - 4 = 0` and an upper bound for every root. -/
theorem claim_C4_witness :
    ¬ |(1 : ℝ)| < M_EPSILON ∧
    SolveQuadratic realOps ⟨1, 0, -4⟩ = 2 ∧
    (1 : ℝ) * 2 ^ 2 + 0 * 2 + (-4) = 0 ∧
    ∀ x : ℝ, 1 * x ^ 2 + 0 * x + (-4) = 0 →
      x ≤ SolveQuadratic realOps ⟨1, 0, -4⟩ := by
  have h := claim_C4_solve_quadratic realOps rfl rfl 1 0 (-4)
  have hge : ¬ |(1 : ℝ)| < M_EPSILON := by rw [M_EPSILON]; norm_num
  have hD : (0 : ℝ) ≤ 0 * 0 - 4 * 1 * (-4) := by norm_num
  have hval : SolveQuadratic realOps ⟨1, 0, -4⟩ = 2 := by
    rw [h.2.1 hge (by norm_num),
      show max (0 : ℝ) (0 * 0 - 4 * 1 * (-4)) = 16 by norm_num,
      show (16 : ℝ) = 4 ^ 2 by norm_num, Real.sqrt_sq (by norm_num)]
    norm_num
  refine ⟨hge, hval, ?_, fun x hx => (h.2.2.2 hge hD).2 x hx⟩
  have hroot := (h.2.2.2 hge hD).1
  rwa [hval] at hroot

end TetMesh
